import Mathlib

/-!
Verification of the decryption-key acquisition pipeline (`src/drm/key_fetcher.py`)
and the download orchestration layer (`src/core/downloader.py`).

The Python source is shallowly embedded: pure string/byte manipulation is
translated to executable Lean functions over `List Char` / `List Nat`
(bytes are `Nat`s below 256); Python exceptions that escape a function are
modelled with `Except`/`Option`; exceptions that the source catches are
modelled by the control flow of the corresponding handler.  External
libraries (`json.loads`, `xml.etree.ElementTree`, the filesystem, the child
process) are modelled as explicit inputs: a `parse_clearkey_response` call
receives both the raw body and the (possibly failed) JSON parse of it, the
KID extractor receives the (possibly failed) XML element tree, and the
downloader receives the observable facts about binaries, process exit and
the output file.
-/

set_option maxRecDepth 4000

/-! ## Base64 (model of Python `base64.b64decode` on `str` input, `validate=False`)

`base64.b64decode` first ASCII-encodes the string (a non-ASCII character
raises `ValueError`), then `binascii.a2b_base64` decodes it leniently,
tracking the position inside the current 4-character quad: characters
outside the alphabet and `=` are skipped; a `=` at quad position 0 or 1 is
ignored, while at position 2 or 3 it counts towards the padding that
completes the quad — as soon as the quad is completed the decode finishes
and everything after is ignored (a data character resets the padding
count); at the end of the input a dangling quad position of 1 is the
`number of data characters ... 1 more than a multiple of 4` error and a
position of 2 or 3 the `Incorrect padding` error.  `none` models a raised
exception (`binascii.Error` or `ValueError` alike — every caller catches
broadly). -/

def isB64StdChar (c : Char) : Bool :=
  (('A' ≤ c) && (c ≤ 'Z')) || (('a' ≤ c) && (c ≤ 'z')) ||
  (('0' ≤ c) && (c ≤ '9')) || (c == '+') || (c == '/')

def b64Val (c : Char) : Nat :=
  if ('A' ≤ c) && (c ≤ 'Z') then c.toNat - 65
  else if ('a' ≤ c) && (c ≤ 'z') then c.toNat - 97 + 26
  else if ('0' ≤ c) && (c ≤ '9') then c.toNat - 48 + 52
  else if c == '+' then 62
  else 63

/-- The character loop of `binascii.a2b_base64` (non-strict): arguments
are the remaining input, the quad position (0-3), the pending bits
(`leftchar`), the running pad count and the output bytes (reversed). -/
def b64DecodeLoop : List Char → Nat → Nat → Nat → List Nat → Option (List Nat)
  | [], quadPos, _, _, out => if quadPos == 0 then some out.reverse else none
  | c :: rest, quadPos, left, pads, out =>
      if c == '=' then
        if 2 ≤ quadPos then
          if 4 ≤ quadPos + (pads + 1) then some out.reverse
          else b64DecodeLoop rest quadPos left (pads + 1) out
        else b64DecodeLoop rest quadPos left pads out
      else if isB64StdChar c then
        match quadPos with
        | 0 => b64DecodeLoop rest 1 (b64Val c) 0 out
        | 1 => b64DecodeLoop rest 2 (b64Val c % 16) 0 ((left * 4 + b64Val c / 16) :: out)
        | 2 => b64DecodeLoop rest 3 (b64Val c % 4) 0 ((left * 16 + b64Val c / 4) :: out)
        | _ => b64DecodeLoop rest 0 0 0 ((left * 64 + b64Val c) :: out)
      else b64DecodeLoop rest quadPos left pads out

def b64decode (s : String) : Option (List Nat) :=
  if s.data.all (fun c => c.toNat ≤ 127) then b64DecodeLoop s.data 0 0 0 []
  else none

/-- Alphabet of `base64.urlsafe_b64encode` (`-` and `_` replace `+` and `/`). -/
def urlsafeB64Char (n : Nat) : Char :=
  if n < 26 then Char.ofNat (65 + n)
  else if n < 52 then Char.ofNat (97 + (n - 26))
  else if n < 62 then Char.ofNat (48 + (n - 52))
  else if n = 62 then '-'
  else '_'

/-- Model of Python `base64.urlsafe_b64encode` on a byte list. -/
def urlsafeB64Encode : List Nat → List Char
  | a :: b :: c :: rest =>
      let x := (a % 256) * 65536 + (b % 256) * 256 + c % 256
      urlsafeB64Char (x / 262144) :: urlsafeB64Char (x / 4096 % 64) ::
      urlsafeB64Char (x / 64 % 64) :: urlsafeB64Char (x % 64) :: urlsafeB64Encode rest
  | [a, b] =>
      let x := (a % 256) * 1024 + (b % 256) * 4
      [urlsafeB64Char (x / 4096), urlsafeB64Char (x / 64 % 64), urlsafeB64Char (x % 64), '=']
  | [a] =>
      let x := (a % 256) * 16
      [urlsafeB64Char (x / 64), urlsafeB64Char (x % 64), '=', '=']
  | [] => []

/-- Model of Python `str.rstrip('=')`. -/
def rstripEq (cs : List Char) : List Char :=
  (cs.reverse.dropWhile (fun c => c == '=')).reverse

/-! ## Hex encoding (model of Python `bytes.hex()`, lowercase) -/

def hexDigitChar (n : Nat) : Char :=
  if n < 10 then Char.ofNat (48 + n) else Char.ofNat (87 + n)

def bytesToHex (bs : List Nat) : String :=
  String.mk (bs.foldr (fun b acc => hexDigitChar (b / 16 % 16) :: hexDigitChar (b % 16) :: acc) [])

/-! ## The padding step of `parse_clearkey_response` (key_fetcher.py lines 224-226 / 233-235)

```python
padding = 4 - len(key_b64) % 4
if padding != 4:
    key_b64 += '=' * padding
``` -/

def addB64Padding (s : String) : String :=
  let padding := 4 - s.length % 4
  if padding ≠ 4 then s ++ String.mk (List.replicate padding '=') else s

/-! ## JSON values

`parse_clearkey_response` receives the raw body text, and Python calls
`json.loads` on it.  The JSON library is external: the embedding passes the
parse result alongside the raw text, `none` standing for a raised
`json.JSONDecodeError`.  `JValue.obj` carries the dict as an association
list (keys unique, as `json.loads` produces). -/

inductive JValue where
  | null : JValue
  | bool : Bool → JValue
  | num : Int → JValue
  | str : String → JValue
  | arr : List JValue → JValue
  | obj : List (String × JValue) → JValue

/-- Python `elem in someList` where `elem` is the string `s`: only a string
member equal to `s` compares equal. -/
def containsJStr (l : List JValue) (s : String) : Bool :=
  l.any (fun j => match j with | .str t => t == s | _ => false)

/-- Python `pat in s` (substring test) on char lists. -/
def isPrefixChars : List Char → List Char → Bool
  | [], _ => true
  | _ :: _, [] => false
  | p :: ps, c :: cs => p == c && isPrefixChars ps cs

def occursIn (pat : List Char) : List Char → Bool
  | [] => isPrefixChars pat []
  | c :: cs => isPrefixChars pat (c :: cs) || occursIn pat cs

def strIn (pat s : String) : Bool := occursIn pat.data s.data

/-! ## `parse_clearkey_response` (key_fetcher.py lines 206-287)

One key entry of the `keys` array is processed as follows (lines 217-246):
the `'k' in key_info and 'kid' in key_info` test, the padding of `k`
*outside* the inner `try` (so a `TypeError` on a non-sized `k` propagates
to the outer handler, which returns the keys accumulated so far), then
inside the inner `try` the base64 decode of `k`, the padding and decode of
`kid` and the emission of `"kidhex:keyhex"`; any exception inside the
inner `try` merely skips the entry.  `EntryStep.abort` models an exception
that reaches the *outer* `except Exception` handler. -/

inductive EntryStep where
  | emit : String → EntryStep
  | skip : EntryStep
  | abort : EntryStep
deriving Repr, DecidableEq

/-- Processing of the values found at `'k'` and `'kid'`.
A non-string `k` raises outside the inner `try` when Python evaluates
`len(key_b64)` (`num`/`bool`/`null`: `TypeError`, abort) or
`key_b64 += '=' * padding` (`dict` needing padding: `TypeError`, abort);
a list `k` (or a dict of length divisible by 4) only fails at
`base64.b64decode`, inside the inner `try`, so the entry is skipped.
A non-string `kid` is only touched inside the inner `try`, so it always
skips. -/
def processPair : JValue → JValue → EntryStep
  | .str kb64, kidv =>
      match b64decode (addB64Padding kb64) with
      | none => .skip
      | some keyBytes =>
          match kidv with
          | .str kidb64 =>
              match b64decode (addB64Padding kidb64) with
              | none => .skip
              | some kidBytes => .emit (bytesToHex kidBytes ++ ":" ++ bytesToHex keyBytes)
          | _ => .skip
  | .arr _, _ => .skip
  | .obj m2, _ => if m2.length % 4 == 0 then .skip else .abort
  | _, _ => .abort

/-- One entry of the `keys` array.  Non-dict entries: Python's
`'k' in key_info` is a substring test on a string, an element test on a
list, and a `TypeError` (abort) otherwise; when both membership tests pass
on a non-dict, the subsequent `key_info['k']` raises `TypeError` (abort). -/
def processEntry : JValue → EntryStep
  | .obj m =>
      match m.lookup "k", m.lookup "kid" with
      | some kv, some kidv => processPair kv kidv
      | _, _ => .skip
  | .str s => if strIn "k" s && strIn "kid" s then .abort else .skip
  | .arr l => if containsJStr l "k" && containsJStr l "kid" then .abort else .skip
  | _ => .abort

/-- The `for key_info in response_data['keys']` loop; the `Bool` records
whether an exception aborted the loop (reaching the outer handler, which
returns the keys accumulated so far and skips the in-function fallback). -/
def runEntries : List JValue → List String → List String × Bool
  | [], acc => (acc, false)
  | e :: rest, acc =>
      match processEntry e with
      | .emit s => runEntries rest (acc ++ [s])
      | .skip => runEntries rest acc
      | .abort => (acc, true)

/-- Maximal runs of characters satisfying `p` (the accumulator holds the
current run reversed). -/
def charRuns (p : Char → Bool) : List Char → List Char → List (List Char)
  | [], acc => if acc.isEmpty then [] else [acc.reverse]
  | c :: rest, acc =>
      if p c then charRuns p rest (c :: acc)
      else if acc.isEmpty then charRuns p rest []
      else acc.reverse :: charRuns p rest []

/-- Greedy chopping of one maximal run into regex matches of a counted
quantifier `\x7blo,hi\x7d`: at each position the engine takes up to `hi`
characters, needs at least `lo`, and a failed start inside the leftover can
never match because every leftover suffix is shorter than `lo`.  Structural
fuel (`run.length` suffices, each step consumes at least one character)
keeps the definition kernel-reducible. -/
def greedyChopFuel (lo hi : Nat) : Nat → List Char → List (List Char)
  | 0, _ => []
  | fuel + 1, run =>
      if 0 < lo ∧ lo ≤ run.length ∧ lo ≤ hi then
        run.take hi :: greedyChopFuel lo hi fuel (run.drop hi)
      else []

def greedyChop (lo hi : Nat) (run : List Char) : List (List Char) :=
  greedyChopFuel lo hi run.length run

def isB64OrEqChar (c : Char) : Bool := isB64StdChar c || c == '='

/-- The fixed placeholder KID hex (`test_kid_hex` in the source). -/
def test_kid_hex : String := "00000000000000000000000000000000"

/-- `re.findall(r'[A-Za-z0-9+/=]\x7b20,\x7d', response_text)` (line 254):
maximal runs of the class, of length at least 20 (the quantifier is
unbounded, so each long-enough run is one match). -/
def parseScanMatches (raw : String) : List String :=
  ((charRuns isB64OrEqChar raw.data []).filter (fun r => 20 ≤ r.length)).map String.mk

/-- The fallback scan inside `parse_clearkey_response` (lines 252-270):
first match of length ≥ 24 whose `b64decode(match + '==')` succeeds with
exactly 16 bytes is emitted with the placeholder KID, then `break`. -/
def parseFallbackScan (raw : String) : List String :=
  match (parseScanMatches raw).findSome? (fun m =>
      if 24 ≤ m.length then
        match b64decode (m ++ "==") with
        | some bs => if bs.length == 16 then some (test_kid_hex ++ ":" ++ bytesToHex bs) else none
        | none => none
      else none) with
  | some k => [k]
  | none => []

/-- Python `.encode('latin-1')`: fails (raises `UnicodeEncodeError`) on any
code point above U+00FF. -/
def latin1Bytes (cs : List Char) : Option (List Nat) :=
  if cs.all (fun c => c.toNat ≤ 255) then some (cs.map Char.toNat) else none

/-- The `except json.JSONDecodeError` branch (lines 272-282): a body of at
least 16 characters has its first 16 characters latin-1 encoded (an
encoding error escapes the function — the surrounding handlers do not catch
an exception raised inside this handler) and emitted as a binary key with
the placeholder KID; a shorter body leaves the key list empty. -/
def nonJsonBranch (raw : String) : Except Unit (List String) :=
  if 16 ≤ raw.length then
    match latin1Bytes (raw.data.take 16) with
    | some bs => .ok [test_kid_hex ++ ":" ++ bytesToHex bs]
    | none => .error ()
  else .ok []

/-- The successful-`json.loads` branch of `parse_clearkey_response`.
`'keys' in response_data` on a non-dict follows Python semantics
(substring / element test / `TypeError`); the outer `except Exception`
returns the keys accumulated so far — in particular an aborted run skips
the `if not keys:` fallback scan. -/
def parseJsonTop (raw : String) (j : JValue) : List String :=
  match j with
  | .obj m =>
      match m.lookup "keys" with
      | some (.arr entries) =>
          match runEntries entries [] with
          | (keys, true) => keys
          | (keys, false) => if keys.isEmpty then parseFallbackScan raw else keys
      | some _ => parseFallbackScan raw
      | none => parseFallbackScan raw
  | .str s => if strIn "keys" s then [] else parseFallbackScan raw
  | .arr l => if containsJStr l "keys" then [] else parseFallbackScan raw
  | _ => []

/-- `parse_clearkey_response(response_text)` (lines 206-287); the second
argument is the outcome of the external `json.loads(response_text)`.
`.error` models an exception escaping the Python function. -/
def parse_clearkey_response (raw : String) (parsed : Option JValue) : Except Unit (List String) :=
  match parsed with
  | some j => .ok (parseJsonTop raw j)
  | none => nonJsonBranch raw

/-! ## `try_alternative_methods` (key_fetcher.py lines 413-453) -/

def isHexDigitChar (c : Char) : Bool :=
  (('0' ≤ c) && (c ≤ '9')) || (('a' ≤ c) && (c ≤ 'f')) || (('A' ≤ c) && (c ≤ 'F'))

/-- `re.findall(r'[A-Za-z0-9+/]\x7b22,24\x7d', response_text)` (line 422). -/
def altB64Matches (raw : String) : List String :=
  (((charRuns isB64StdChar raw.data []).map (greedyChop 22 24)).flatten).map String.mk

/-- `re.findall(r'[0-9a-fA-F]\x7b32\x7d', response_text)` (line 439). -/
def altHexMatches (raw : String) : List String :=
  (((charRuns isHexDigitChar raw.data []).map (greedyChop 32 32)).flatten).map String.mk

/-- Method 1 (lines 421-436): each base64-looking match is decoded with two
`=` appended; a decode error skips the candidate, a decoded length other
than 16 appends nothing, and there is no duplicate check. -/
def altB64Step (ks : List String) (m : String) : List String :=
  match b64decode (m ++ "==") with
  | some bs => if bs.length == 16 then ks ++ [test_kid_hex ++ ":" ++ bytesToHex bs] else ks
  | none => ks

/-- Method 2 (lines 438-448): each 32-hex match (kept in its original case)
is paired with the placeholder KID and appended unless the exact
`kid:key` string is already present. -/
def altHexStep (ks : List String) (m : String) : List String :=
  if m.length == 32 then
    if ks.contains (test_kid_hex ++ ":" ++ m) then ks
    else ks ++ [test_kid_hex ++ ":" ++ m]
  else ks

def try_alternative_methods (raw : String) : List String :=
  (altHexMatches raw).foldl altHexStep ((altB64Matches raw).foldl altB64Step [])

/-- The decode stage of `get_keys` (key_fetcher.py lines 397-406): the
response body is parsed, and only when the parse yields *zero* keys is
`try_alternative_methods` consulted; an exception escaping the parse is
caught by `get_keys`'s outer handler, which returns the empty key list
without trying the alternative methods. -/
def getKeysParseStage (raw : String) (parsed : Option JValue) : List String :=
  match parse_clearkey_response raw parsed with
  | .error _ => []
  | .ok ks => if ks.isEmpty then try_alternative_methods raw else ks

/-! ## `create_clearkey_request` (key_fetcher.py lines 169-204) -/

structure ClearkeyRequest where
  kids : List String
  reqType : String
deriving Repr, DecidableEq

/-- The fallback request built from the constant test KID
`"AAAAAAAAAAAAAAAAAAAAAA"` (lines 193-204). -/
def fallbackClearkeyRequest : ClearkeyRequest :=
  let testKidBytes := (b64decode ("AAAAAAAAAAAAAAAAAAAAAA" ++ "==")).getD []
  { kids := [String.mk (rstripEq (urlsafeB64Encode testKidBytes))], reqType := "temporary" }

/-- `create_clearkey_request(kid_base64)`: a falsy argument (absent or
empty) or a `base64.b64decode` failure falls back to the test KID; a
successful decode is re-encoded base64url and stripped of padding. -/
def create_clearkey_request (kid_base64 : Option String) : ClearkeyRequest :=
  match kid_base64 with
  | some s =>
      if s ≠ "" then
        match b64decode s with
        | some kidBytes =>
            { kids := [String.mk (rstripEq (urlsafeB64Encode kidBytes))], reqType := "temporary" }
        | none => fallbackClearkeyRequest
      else fallbackClearkeyRequest
  | none => fallbackClearkeyRequest

/-! ## XML element trees and `extract_kid_from_mpd` (key_fetcher.py lines 44-92)

`xml.etree.ElementTree` is external; the embedding receives the parsed
element tree (`none` models `ET.fromstring` raising, which the function's
`except` clause turns into `None`).  Tags use ElementTree's
`\x7bnamespace-uri\x7dlocalname` form.  The mutual `XElem`/`XForest`
presentation keeps every traversal structurally recursive. -/

mutual
inductive XElem where
  | mk : String → List (String × String) → Option String → XForest → XElem
inductive XForest where
  | nil : XForest
  | cons : XElem → XForest → XForest
end

def XElem.tag : XElem → String
  | .mk t _ _ _ => t

def XElem.attrib : XElem → List (String × String)
  | .mk _ a _ _ => a

def XElem.text : XElem → Option String
  | .mk _ _ x _ => x

def XElem.children : XElem → XForest
  | .mk _ _ _ cs => cs

mutual
/-- `elem.iter()`: the element followed by all descendants, preorder. -/
def iterElem : XElem → List XElem
  | .mk t a x cs => .mk t a x cs :: iterForest cs
def iterForest : XForest → List XElem
  | .nil => []
  | .cons e rest => iterElem e ++ iterForest rest
end

/-- `root.findall(".//tag")`: all proper descendants with the tag, in
document order. -/
def findallDesc (root : XElem) (t : String) : List XElem :=
  (iterForest root.children).filter (fun e => e.tag == t)

/-- `elem.find(tag)`: first *direct* child with the tag. -/
def findChildTag : XForest → String → Option XElem
  | .nil, _ => none
  | .cons e rest, t => if e.tag == t then some e else findChildTag rest t

/-- The characters Python `str.strip()` removes (those with
`str.isspace()` true). -/
def isPySpace (c : Char) : Bool :=
  c == ' ' || c == '\t' || c == '\n' || c == '\x0d' || c == '\x0b' || c == '\x0c' ||
  c == '\x1c' || c == '\x1d' || c == '\x1e' || c == '\x1f' || c == '\x85' || c == '\xa0' ||
  c == '\u1680' || (0x2000 ≤ c.toNat && c.toNat ≤ 0x200a) ||
  c == '\u2028' || c == '\u2029' || c == '\u202f' || c == '\u205f' || c == '\u3000'

def pyStrip (s : String) : String :=
  String.mk (((s.data.dropWhile isPySpace).reverse.dropWhile isPySpace).reverse)

def clearkeySchemeUri : String := "urn:uuid:e2719d58-a985-b3c9-781a-b030af78d30e"

def contentProtectionTag : String := "\x7burn:mpeg:dash:schema:mpd:2011\x7dContentProtection"

def cencDefaultKidTag : String := "\x7burn:mpeg:cenc:2013\x7ddefault_KID"

/-- Truthiness-guarded stripped text of a `default_KID` element
(`if default_kid is not None and default_kid.text:` followed by
`.strip()`). -/
def truthyStrippedText (e : XElem) : Option String :=
  match e.text with
  | some t => if t == "" then none else some (pyStrip t)
  | none => none

/-- Strategy 1 (lines 63-71): the first `ContentProtection` descendant
whose `schemeIdUri` is the ClearKey UUID and whose direct `cenc:default_KID`
child has truthy text. -/
def strategy1 (root : XElem) : Option String :=
  (findallDesc root contentProtectionTag).findSome? (fun cp =>
    if ((cp.attrib.lookup "schemeIdUri").getD "") == clearkeySchemeUri then
      match findChildTag cp.children cencDefaultKidTag with
      | some dk => truthyStrippedText dk
      | none => none
    else none)

/-- Strategy 2 (lines 73-78): any `cenc:default_KID` descendant with truthy
text. -/
def strategy2 (root : XElem) : Option String :=
  (findallDesc root cencDefaultKidTag).findSome? truthyStrippedText

/-- Strategy 3 (lines 80-85): the first element (including the root) with a
`default_KID` attribute; the raw attribute value is returned, even empty. -/
def strategy3 (root : XElem) : Option String :=
  (iterElem root).findSome? (fun e => e.attrib.lookup "default_KID")

/-- `extract_kid_from_mpd(mpd_content)` (lines 44-92); the argument is the
external `ET.fromstring` outcome (`none`: parse error, caught, `None`).
After the three strategies the function logs a warning and returns `None` —
there is no further strategy in the code. -/
def extract_kid_from_mpd (parsed : Option XElem) : Option String :=
  match parsed with
  | some root =>
      match strategy1 root with
      | some v => some v
      | none =>
          match strategy2 root with
          | some v => some v
          | none => strategy3 root
  | none => none

/-! ## Download orchestration (`src/core/downloader.py`)

The filesystem and the child process are external collaborators; a
`DownloadEnv` records the observable facts `download_video` consults:
whether the two configured binaries exist, whether `subprocess.Popen`
launched without an exception, the process exit code, and whether the
expected output file exists (and its size, which the code reads only for
logging). -/

structure DownloadEnv where
  downloaderExists : Bool
  ffmpegExists : Bool
  launchOk : Bool
  exitCode : Int
  outputFileExists : Bool
  outputFileSize : Nat
deriving Repr, DecidableEq

/-- `check_dependencies` (downloader.py lines 33-49): both binaries are
appended to `missing` when absent — N_m3u8DL-RE with an `error` log,
FFmpeg with a `warning` log — and a non-empty `missing` returns `False`. -/
def check_dependencies (downloaderExists ffmpegExists : Bool) : Bool :=
  let missing :=
    (if !downloaderExists then ["N_m3u8DL-RE"] else []) ++
    (if !ffmpegExists then ["FFmpeg"] else [])
  missing.isEmpty

/-- `run_command` (lines 51-122): success is a successful launch together
with return code 0; the captured output only feeds logging and the failure
keyword classification. -/
def run_command_success (env : DownloadEnv) : Bool :=
  env.launchOk && (env.exitCode == 0)

/-- `download_video` (lines 124-251), result value only: a failed
dependency check returns `False` before any process is launched; on
success of `run_command` the result is the bare existence of the output
file (`os.path.exists`, lines 222-235 — the size is read only for the
log); a failed `run_command` returns `False` after a keyword scan that
only logs. -/
def download_video (env : DownloadEnv) : Bool :=
  if !(check_dependencies env.downloaderExists env.ffmpegExists) then false
  else if run_command_success env then env.outputFileExists
  else false

/-- Rendering of the *spec's* stated success condition for comparison
(spec §4.5: exit code 0 and the expected output file existing and
non-empty). -/
def specSuccessCondition (env : DownloadEnv) : Bool :=
  (env.exitCode == 0) && env.outputFileExists && (env.outputFileSize != 0)

/-- The characters following the first occurrence of `pat`, if any. -/
def dropAfterToken (pat : List Char) : List Char → Option (List Char)
  | [] => if pat.isEmpty then some [] else none
  | c :: cs =>
      if isPrefixChars pat (c :: cs) then some ((c :: cs).drop pat.length)
      else dropAfterToken pat cs

/-- Rendering of the spec's strategy 4 for comparison (spec §4.1 item 4:
regular-expression scan of raw manifest text for a `default_KID`-like
token followed by a base64-ish value of at least 20 characters); the code
implements no such strategy. -/
def specStrategy4TextScan (raw : String) : Option String :=
  match dropAfterToken "default_KID".data raw.data with
  | some rest =>
      let v := (rest.dropWhile (fun c => !isB64StdChar c)).takeWhile isB64StdChar
      if 20 ≤ v.length then some (String.mk v) else none
  | none => none

/-! ## Concrete inputs used by the theorems below

Each `...Raw` string is the body handed to the Python function and each
accompanying `JValue`/`XElem` is what the external `json.loads` /
`ET.fromstring` produces on it. -/

/-- `\x7b"keys":[\x7b"kty":"oct","k":"AAAA","kid":"AAAA"\x7d]\x7d` — a well-formed
response whose `k`/`kid` decode to 3 bytes each. -/
def shortKeyResponse : JValue :=
  .obj [("keys", .arr [.obj [("kty", .str "oct"), ("k", .str "AAAA"), ("kid", .str "AAAA")]])]

def shortKeyResponseRaw : String :=
  "\x7b\"keys\":[\x7b\"kty\":\"oct\",\"k\":\"AAAA\",\"kid\":\"AAAA\"\x7d]\x7d"

/-- Two entries with the same `kid` (`EjRWeJCrze8SNFZ4kKvN7w`, i.e. KID
`1234567890abcdef1234567890abcdef`) and different keys. -/
def dupKidEntry1 : JValue :=
  .obj [("kty", .str "oct"), ("k", .str "AAAAAAAAAAAAAAAAAAAAAA"), ("kid", .str "EjRWeJCrze8SNFZ4kKvN7w")]

def dupKidEntry2 : JValue :=
  .obj [("kty", .str "oct"), ("k", .str "AQAAAAAAAAAAAAAAAAAAAA"), ("kid", .str "EjRWeJCrze8SNFZ4kKvN7w")]

def dupKidResponse : JValue := .obj [("keys", .arr [dupKidEntry1, dupKidEntry2])]

def dupKidResponseRaw : String :=
  "\x7b\"keys\":[\x7b\"kty\":\"oct\",\"k\":\"AAAAAAAAAAAAAAAAAAAAAA\",\"kid\":\"EjRWeJCrze8SNFZ4kKvN7w\"\x7d,\x7b\"kty\":\"oct\",\"k\":\"AQAAAAAAAAAAAAAAAAAAAA\",\"kid\":\"EjRWeJCrze8SNFZ4kKvN7w\"\x7d]\x7d"

/-- A plain-text license body containing a 32-hex-character substring. -/
def plainHexBodyRaw : String := "KEYVALUE cafebabe00112233445566778899aabb"

/-- Manifest tree with both a ClearKey-scoped `default_KID` (text
`KID-ONE`) and, earlier in document order, a loose unscoped `default_KID`
(text `KID-TWO`). -/
def scopedKidElem : XElem := .mk cencDefaultKidTag [] (some "KID-ONE") .nil

def clearkeyCpElem : XElem :=
  .mk contentProtectionTag [("schemeIdUri", clearkeySchemeUri)] none (.cons scopedKidElem .nil)

def looseKidElem : XElem := .mk cencDefaultKidTag [] (some "KID-TWO") .nil

def dualKidManifest : XElem := .mk "MPD" [] none (.cons looseKidElem (.cons clearkeyCpElem .nil))

/-- `<MPD><Period>default_KID=QUJDREVGR0hJSktMTU5PUA</Period></MPD>`:
no namespaced `ContentProtection`/`default_KID` element and no
`default_KID` attribute, but the raw text carries a `default_KID=`-style
token with a 22-character base64-ish value. -/
def textPatternManifest : XElem :=
  .mk "MPD" [] none (.cons (.mk "Period" [] (some "default_KID=QUJDREVGR0hJSktMTU5PUA") .nil) .nil)

def textPatternManifestRaw : String :=
  "<MPD><Period>default_KID=QUJDREVGR0hJSktMTU5PUA</Period></MPD>"

/-- A manifest with nothing KID-like at all. -/
def emptyManifest : XElem := .mk "MPD" [] none .nil

/-! ## Helper lemmas -/

theorem bytesToHex_length (bs : List Nat) : (bytesToHex bs).length = 2 * bs.length := by
  induction bs with
  | nil => rfl
  | cons b rest ih =>
      simp only [bytesToHex, String.length] at ih ⊢
      simp only [List.foldr_cons, List.length_cons]
      omega

theorem foldl_mem_preserve {α : Type} (f : List String → α → List String) (P : String → Prop)
    (hf : ∀ ks a e, (∀ x ∈ ks, P x) → e ∈ f ks a → P e) :
    ∀ (ms : List α) (ks : List String), (∀ x ∈ ks, P x) → ∀ e ∈ ms.foldl f ks, P e := by
  intro ms
  induction ms with
  | nil => intro ks h e he; exact h e he
  | cons a rest ih =>
      intro ks h e he
      exact ih (f ks a) (fun x hx => hf ks a x h hx) e he

theorem greedyChopFuel_mem_length (lo hi : Nat) (hlh : lo ≤ hi) :
    ∀ (fuel : Nat) (run m : List Char), m ∈ greedyChopFuel lo hi fuel run →
      lo ≤ m.length ∧ m.length ≤ hi := by
  intro fuel
  induction fuel with
  | zero => intro run m hm; simp [greedyChopFuel] at hm
  | succ n ih =>
      intro run m hm
      simp only [greedyChopFuel] at hm
      split at hm
      · rcases List.mem_cons.1 hm with rfl | hm2
        · rename_i hcond
          constructor
          · simp only [List.length_take]
            omega
          · simp only [List.length_take]
            omega
        · exact ih _ _ hm2
      · simp at hm

theorem runEntries_acc (l : List JValue) (acc : List String) :
    runEntries l acc = (acc ++ (runEntries l []).1, (runEntries l []).2) := by
  induction l generalizing acc with
  | nil => simp [runEntries]
  | cons e rest ih =>
      cases hp : processEntry e with
      | emit s =>
          simp only [runEntries, hp]
          rw [ih (acc ++ [s]), ih ([] ++ [s])]
          simp
      | skip =>
          simp only [runEntries, hp]
          exact ih acc
      | abort => simp [runEntries, hp]

theorem runEntries_noabort_snd (l : List JValue) (h : ∀ e ∈ l, processEntry e ≠ .abort) :
    (runEntries l []).2 = false := by
  induction l with
  | nil => simp [runEntries]
  | cons e rest ih =>
      cases hp : processEntry e with
      | emit s =>
          simp only [runEntries, hp]
          rw [runEntries_acc rest ([] ++ [s])]
          exact ih (fun x hx => h x (List.mem_cons_of_mem e hx))
      | skip =>
          simp only [runEntries, hp]
          exact ih (fun x hx => h x (List.mem_cons_of_mem e hx))
      | abort => exact absurd hp (h e (List.mem_cons_self e rest))

theorem isB64StdChar_ne_pad {c : Char} (h : isB64StdChar c = true) : (c == '=') = false := by
  cases hcc : (c == '=') with
  | false => rfl
  | true =>
      have hceq : c = '=' := by simpa using hcc
      subst hceq
      exact absurd h (by decide)

theorem isB64StdChar_ascii {c : Char} (h : isB64StdChar c = true) : c.toNat ≤ 127 := by
  simp only [isB64StdChar, Bool.or_eq_true, Bool.and_eq_true, decide_eq_true_eq,
    beq_iff_eq] at h
  rcases h with (((⟨_, h2⟩ | ⟨_, h2⟩) | ⟨_, h2⟩) | rfl) | rfl
  · have h3 : c.val.toNat ≤ ('Z').val.toNat := Char.le_def.1 h2
    exact Nat.le_trans h3 (by decide)
  · have h3 : c.val.toNat ≤ ('z').val.toNat := Char.le_def.1 h2
    exact Nat.le_trans h3 (by decide)
  · have h3 : c.val.toNat ≤ ('9').val.toNat := Char.le_def.1 h2
    exact Nat.le_trans h3 (by decide)
  · decide
  · decide

/-- Walking the decode loop over alphabet-only characters never terminates
early, keeps the pad count at zero, and advances the quad position by the
number of characters consumed. -/
theorem b64DecodeLoop_alpha (tail : List Char) :
    ∀ (cs : List Char), (∀ c ∈ cs, isB64StdChar c = true) →
    ∀ qp left out, qp ≤ 3 →
    ∃ left2 out2, b64DecodeLoop (cs ++ tail) qp left 0 out =
      b64DecodeLoop tail ((qp + cs.length) % 4) left2 0 out2 := by
  intro cs
  induction cs with
  | nil =>
      intro _ qp left out hqp
      exact ⟨left, out, by simp [Nat.mod_eq_of_lt (by omega : qp < 4)]⟩
  | cons c cs ih =>
      intro h qp left out hqp
      have hc : isB64StdChar c = true := h c (List.mem_cons_self c cs)
      have hcp : (c == '=') = false := isB64StdChar_ne_pad hc
      have htl : ∀ x ∈ cs, isB64StdChar x = true := fun x hx => h x (List.mem_cons_of_mem c hx)
      interval_cases qp
      · obtain ⟨l2, o2, heq⟩ := ih htl 1 (b64Val c) out (by omega)
        refine ⟨l2, o2, ?_⟩
        have hstep : b64DecodeLoop ((c :: cs) ++ tail) 0 left 0 out =
            b64DecodeLoop (cs ++ tail) 1 (b64Val c) 0 out := by
          simp [b64DecodeLoop, hcp, hc]
        rw [hstep, heq]
        congr 1
        simp only [List.length_cons]
        omega
      · obtain ⟨l2, o2, heq⟩ := ih htl 2 (b64Val c % 16) ((left * 4 + b64Val c / 16) :: out) (by omega)
        refine ⟨l2, o2, ?_⟩
        have hstep : b64DecodeLoop ((c :: cs) ++ tail) 1 left 0 out =
            b64DecodeLoop (cs ++ tail) 2 (b64Val c % 16) 0 ((left * 4 + b64Val c / 16) :: out) := by
          simp [b64DecodeLoop, hcp, hc]
        rw [hstep, heq]
        congr 1
        simp only [List.length_cons]
        omega
      · obtain ⟨l2, o2, heq⟩ := ih htl 3 (b64Val c % 4) ((left * 16 + b64Val c / 4) :: out) (by omega)
        refine ⟨l2, o2, ?_⟩
        have hstep : b64DecodeLoop ((c :: cs) ++ tail) 2 left 0 out =
            b64DecodeLoop (cs ++ tail) 3 (b64Val c % 4) 0 ((left * 16 + b64Val c / 4) :: out) := by
          simp [b64DecodeLoop, hcp, hc]
        rw [hstep, heq]
        congr 1
        simp only [List.length_cons]
        omega
      · obtain ⟨l2, o2, heq⟩ := ih htl 0 0 ((left * 64 + b64Val c) :: out) (by omega)
        refine ⟨l2, o2, ?_⟩
        have hstep : b64DecodeLoop ((c :: cs) ++ tail) 3 left 0 out =
            b64DecodeLoop (cs ++ tail) 0 0 0 ((left * 64 + b64Val c) :: out) := by
          simp [b64DecodeLoop, hcp, hc]
        rw [hstep, heq]
        congr 1
        simp only [List.length_cons]
        omega

/-- The non-JSON branch on a body of length at least 16 with a latin-1
encodable 16-character prefix. -/
theorem nonJsonBranch_long_latin1 (raw : String) (h1 : 16 ≤ raw.length)
    (h2 : (raw.data.take 16).all (fun c => c.toNat ≤ 255) = true) :
    nonJsonBranch raw =
      .ok [test_kid_hex ++ ":" ++ bytesToHex ((raw.data.take 16).map Char.toNat)] := by
  simp [nonJsonBranch, h1, latin1Bytes, h2]

/-- Claim C1 counterexample: the decoder does *not* return an empty list on
every malformed input — the 16-character non-JSON body `aaaaaaaaaaaaaaaa`
yields one binary-extraction entry — and it can raise: a non-JSON body of
16 euro signs reaches the latin-1 encode inside the `JSONDecodeError`
handler, and the resulting `UnicodeEncodeError` escapes the function. -/
theorem parse_malformed_counterexample :
    parse_clearkey_response "aaaaaaaaaaaaaaaa" none =
      .ok ["00000000000000000000000000000000:61616161616161616161616161616161"] ∧
    parse_clearkey_response "€€€€€€€€€€€€€€€€" none = .error () :=
  ⟨rfl, rfl⟩

/-- Claim C1 (amended): `parse_clearkey_response` always returns a list for
JSON-parseable bodies, but on a malformed (non-JSON) body it returns the
empty list only when the body is shorter than 16 characters; a longer
malformed body yields a single entry built from the first 16 latin-1 bytes,
and when that prefix is not latin-1 encodable the function raises instead
of returning. -/
theorem parse_malformed_behavior (raw : String) :
    (raw.length < 16 → parse_clearkey_response raw none = .ok []) ∧
    (16 ≤ raw.length → (raw.data.take 16).all (fun c => c.toNat ≤ 255) = true →
      parse_clearkey_response raw none =
        .ok [test_kid_hex ++ ":" ++ bytesToHex ((raw.data.take 16).map Char.toNat)]) ∧
    (16 ≤ raw.length → (raw.data.take 16).all (fun c => c.toNat ≤ 255) = false →
      parse_clearkey_response raw none = .error ()) ∧
    (∀ j, ∃ ks, parse_clearkey_response raw (some j) = .ok ks) := by
  refine ⟨?_, ?_, ?_, fun j => ⟨parseJsonTop raw j, rfl⟩⟩
  · intro h
    have : ¬(16 ≤ raw.length) := by omega
    simp [parse_clearkey_response, nonJsonBranch, this]
  · intro h1 h2
    exact nonJsonBranch_long_latin1 raw h1 h2
  · intro h1 h2
    simp [parse_clearkey_response, nonJsonBranch, h1, latin1Bytes, h2]

/-- Witness for C1 (amended) at the malformed body `0123456789abcdef`. -/
theorem parse_malformed_behavior_witness :
    parse_clearkey_response "0123456789abcdef" none =
      .ok [test_kid_hex ++ ":" ++
        bytesToHex ((("0123456789abcdef" : String).data.take 16).map Char.toNat)] :=
  (parse_malformed_behavior "0123456789abcdef").2.1 (by decide) (by decide)

/-- Claim C2 counterexample: the primary path emits an entry whose decoded
KID and KEY are 3 bytes (6 hex characters), not 16 — a `k`/`kid` of
decoded length other than 16 is emitted unchanged, not treated as a decode
error. -/
theorem short_key_counterexample :
    parse_clearkey_response shortKeyResponseRaw (some shortKeyResponse) =
      .ok ["000000:000000"] ∧
    ("000000" : String).length ≠ 32 :=
  ⟨rfl, by decide⟩

/-- Claim C2 (amended): the 16-byte guarantee holds only on the fallback
extraction paths: every entry `try_alternative_methods` produces is the
placeholder KID joined to a key of exactly 32 hex characters (16 bytes);
the primary JSON path emits whatever lengths the base64 decode yields. -/
theorem alt_methods_entry_shape (raw : String) (e : String)
    (he : e ∈ try_alternative_methods raw) :
    ∃ k, e = test_kid_hex ++ ":" ++ k ∧ k.length = 32 := by
  have hb64 : ∀ x ∈ (altB64Matches raw).foldl altB64Step [],
      ∃ k, x = test_kid_hex ++ ":" ++ k ∧ k.length = 32 := by
    refine foldl_mem_preserve altB64Step _ ?_ _ [] (by simp)
    intro ks a x hks hx
    unfold altB64Step at hx
    split at hx
    · rename_i bs hbs
      split at hx
      · rename_i hlen
        rcases List.mem_append.1 hx with h1 | h1
        · exact hks x h1
        · rcases List.mem_singleton.1 h1 with rfl
          refine ⟨bytesToHex bs, rfl, ?_⟩
          rw [bytesToHex_length]
          have hbs16 : bs.length = 16 := by simpa using hlen
          omega
      · exact hks x hx
    · exact hks x hx
  unfold try_alternative_methods at he
  refine foldl_mem_preserve altHexStep _ ?_ _ _ hb64 e he
  intro ks a x hks hx
  unfold altHexStep at hx
  split at hx
  · rename_i hlen
    split at hx
    · exact hks x hx
    · rcases List.mem_append.1 hx with h1 | h1
      · exact hks x h1
      · rcases List.mem_singleton.1 h1 with rfl
        exact ⟨a, rfl, by simpa using hlen⟩
  · exact hks x hx

/-- Witness for C2 (amended) at a body that is exactly one 32-hex run. -/
theorem alt_methods_entry_shape_witness :
    ∃ k, ("00000000000000000000000000000000:00112233445566778899aabbccddeeff" : String) =
      test_kid_hex ++ ":" ++ k ∧ k.length = 32 :=
  alt_methods_entry_shape "00112233445566778899aabbccddeeff" _ (by decide)

/-- Claim C3: when strategy 1 (ClearKey-scoped `default_KID`) succeeds, its
value is the result of `extract_kid_from_mpd`, regardless of what the
looser strategy 2 would have found; in particular a differing unscoped
value is never returned. -/
theorem clearkey_strategy_precedence (root : XElem) (v w : String)
    (h1 : strategy1 root = some v) (_h2 : strategy2 root = some w) (hvw : w ≠ v) :
    extract_kid_from_mpd (some root) = some v ∧
    extract_kid_from_mpd (some root) ≠ some w := by
  have hx : extract_kid_from_mpd (some root) = some v := by
    simp [extract_kid_from_mpd, h1]
  refine ⟨hx, ?_⟩
  rw [hx]
  intro hc
  exact hvw (Option.some.inj hc).symm

/-- Witness for C3 at a manifest holding both a ClearKey-scoped KID
(`KID-ONE`) and an earlier loose unscoped KID (`KID-TWO`). -/
theorem clearkey_strategy_precedence_witness :
    extract_kid_from_mpd (some dualKidManifest) = some "KID-ONE" ∧
    extract_kid_from_mpd (some dualKidManifest) ≠ some "KID-TWO" :=
  clearkey_strategy_precedence dualKidManifest "KID-ONE" "KID-TWO"
    (by decide) (by decide) (by decide)

theorem create_request_kids_len (k : Option String) :
    (create_clearkey_request k).kids.length = 1 := by
  have hfb : fallbackClearkeyRequest.kids.length = 1 := by decide
  cases k with
  | none => exact hfb
  | some s =>
      by_cases h0 : s = ""
      · subst h0
        simpa [create_clearkey_request] using hfb
      · cases hb : b64decode s with
        | none => simpa [create_clearkey_request, h0, hb] using hfb
        | some bs => simp [create_clearkey_request, h0, hb]

/-- Claim C4: with no resolved KID (`None` or an empty string) or a KID
string whose base64 decode raises, `create_clearkey_request` falls back to
the constant test KID, whose base64url-without-padding form is
`AAAAAAAAAAAAAAAAAAAAAA`; and for *every* input the `kids` list is a
singleton (never empty, and the function, modelled totally, never
raises). -/
theorem clearkey_request_fallback (kid : Option String)
    (h : kid = none ∨ kid = some "" ∨ ∃ s, kid = some s ∧ b64decode s = none) :
    (create_clearkey_request kid).kids = ["AAAAAAAAAAAAAAAAAAAAAA"] ∧
    ∀ k, (create_clearkey_request k).kids.length = 1 := by
  refine ⟨?_, create_request_kids_len⟩
  have hfb : fallbackClearkeyRequest.kids = ["AAAAAAAAAAAAAAAAAAAAAA"] := by decide
  rcases h with rfl | rfl | ⟨s, rfl, hs⟩
  · exact hfb
  · simpa [create_clearkey_request] using hfb
  · by_cases h0 : s = ""
    · subst h0
      simpa [create_clearkey_request] using hfb
    · simpa [create_clearkey_request, h0, hs] using hfb

/-- Witness for C4 at the undecodable KID string `A` (one base64 data
character is invalid). -/
theorem clearkey_request_fallback_witness :
    (create_clearkey_request (some "A")).kids = ["AAAAAAAAAAAAAAAAAAAAAA"] ∧
    ∀ k, (create_clearkey_request k).kids.length = 1 :=
  clearkey_request_fallback (some "A") (.inr (.inr ⟨"A", rfl, by decide⟩))

/-- Claim C5 counterexample: with both binaries present, a clean launch,
exit code 0 and an *empty* (size 0) existing output file, `download_video`
returns `True`, although the spec's success condition (exit 0 and output
existing and non-empty) is false — the code never checks the size. -/
theorem download_empty_file_counterexample :
    download_video ⟨true, true, true, 0, true, 0⟩ = true ∧
    specSuccessCondition ⟨true, true, true, 0, true, 0⟩ = false := by
  decide

/-- Claim C5 (amended): `download_video` reports success exactly when the
dependency check passes, the process launches, exits with code 0 and the
expected output file exists — non-emptiness is not checked; in particular
exit code 0 with the file absent and any non-zero exit code both yield
failure. -/
theorem download_success_characterization (env : DownloadEnv) :
    download_video env =
      (check_dependencies env.downloaderExists env.ffmpegExists &&
        run_command_success env && env.outputFileExists) := by
  unfold download_video
  cases hc : check_dependencies env.downloaderExists env.ffmpegExists <;>
    cases hr : run_command_success env <;> simp [hc, hr]

/-- Claim C6: contrary to the spec, a missing optional transcoder binary
(ffmpeg) is *fatal*: `check_dependencies` appends FFmpeg to `missing` (its
log call does use `warning` severity, and line 212 guards ffmpeg use with
an existence test, so the intent is clearly optional) and then returns
`False` because `missing` is non-empty, so `download_video` aborts with no
process launched.  With both binaries present the check passes. -/
theorem ffmpeg_missing_is_fatal :
    check_dependencies true false = false ∧
    download_video ⟨true, false, true, 0, true, 1000⟩ = false ∧
    check_dependencies true true = true := by
  decide

/-- Claim C7 counterexample: on the plain-text body
`KEYVALUE cafebabe00112233445566778899aabb` the decode stage of `get_keys`
does *not* extract the 32-hex substring: `parse_clearkey_response` takes
its `JSONDecodeError` branch and returns the binary-extraction entry built
from the first 16 characters, so the non-empty result shields
`try_alternative_methods` — which, called directly, would indeed have
produced the placeholder-KID/hex pair. -/
theorem plain_hex_body_counterexample :
    getKeysParseStage plainHexBodyRaw none =
      ["00000000000000000000000000000000:4b455956414c55452063616665626162"] ∧
    "00000000000000000000000000000000:cafebabe00112233445566778899aabb" ∉
      getKeysParseStage plainHexBodyRaw none ∧
    try_alternative_methods plainHexBodyRaw =
      ["00000000000000000000000000000000:cafebabe00112233445566778899aabb"] := by
  refine ⟨rfl, by decide, rfl⟩

/-- Claim C7 (amended): the hex fallback lives in
`try_alternative_methods`, which `get_keys` consults only when the parse
stage yields zero entries; but every non-JSON body of length at least 16
(hence every plain-text body long enough to contain a 32-hex substring,
with a latin-1 encodable prefix) already yields the single
binary-extraction entry, so the fallback is not reached on such bodies. -/
theorem nonjson_binary_shadows_fallback (raw : String)
    (h1 : 16 ≤ raw.length)
    (h2 : (raw.data.take 16).all (fun c => c.toNat ≤ 255) = true) :
    getKeysParseStage raw none =
      [test_kid_hex ++ ":" ++ bytesToHex ((raw.data.take 16).map Char.toNat)] := by
  unfold getKeysParseStage parse_clearkey_response
  rw [nonJsonBranch_long_latin1 raw h1 h2]
  simp

/-- Witness for C7 (amended) at the plain-text body `PLAINTEXTRESPONSE`. -/
theorem nonjson_binary_shadows_fallback_witness :
    getKeysParseStage "PLAINTEXTRESPONSE" none =
      [test_kid_hex ++ ":" ++
        bytesToHex ((("PLAINTEXTRESPONSE" : String).data.take 16).map Char.toNat)] :=
  nonjson_binary_shadows_fallback "PLAINTEXTRESPONSE" (by decide) (by decide)

/-- Claim C8 counterexample: an input of length 5 (≡ 1 mod 4) is *padded*
(with three `=`, to a multiple of 4), not rejected by the padding step; the
subsequent base64 decode is what rejects it. -/
theorem padding_mod1_counterexample :
    addB64Padding "AAAAA" = "AAAAA===" ∧
    b64decode (addB64Padding "AAAAA") = none :=
  ⟨rfl, rfl⟩

/-- Claim C8 (amended): the padding step always yields a length that is a
multiple of 4 — including for inputs of length ≡ 1 mod 4, which are padded
like every other input; for base64-alphabet inputs of length ≢ 1 mod 4 the
decode of the padded string succeeds (never fails from padding length),
while a length ≡ 1 mod 4 is rejected afterwards, by the decode itself. -/
theorem padding_step_properties (s : String) :
    (addB64Padding s).length % 4 = 0 ∧
    (s.data.all isB64StdChar = true → s.length % 4 ≠ 1 →
      (b64decode (addB64Padding s)).isSome = true) := by
  have hlen : (addB64Padding s).length =
      s.length + (if s.length % 4 = 0 then 0 else 4 - s.length % 4) := by
    unfold addB64Padding
    by_cases h : s.length % 4 = 0
    · have h4 : ¬(4 - s.length % 4 ≠ 4) := by omega
      simp [h4, h]
    · have h4 : 4 - s.length % 4 ≠ 4 := by omega
      simp [h4, h, String.length_append]
  have hdata : (addB64Padding s).data =
      s.data ++ List.replicate (if s.length % 4 = 0 then 0 else 4 - s.length % 4) '=' := by
    unfold addB64Padding
    by_cases h : s.length % 4 = 0
    · have h4 : ¬(4 - s.length % 4 ≠ 4) := by omega
      simp [h4, h]
    · have h4 : 4 - s.length % 4 ≠ 4 := by omega
      simp [h4, h]
  have hmod : (addB64Padding s).length % 4 = 0 := by
    rw [hlen]
    by_cases h : s.length % 4 = 0
    · simp [h]
    · simp only [h, if_false]
      omega
  refine ⟨hmod, ?_⟩
  intro hall h1
  have hsl : s.data.length = s.length := rfl
  have hall2 : ∀ c ∈ s.data, isB64StdChar c = true := List.all_eq_true.1 hall
  have hasc : ((addB64Padding s).data.all fun c => decide (c.toNat ≤ 127)) = true := by
    rw [hdata, List.all_append, Bool.and_eq_true]
    constructor
    · exact List.all_eq_true.2 (fun c hc => decide_eq_true (isB64StdChar_ascii (hall2 c hc)))
    · refine List.all_eq_true.2 (fun c hc => ?_)
      have hce : c = '=' := List.eq_of_mem_replicate hc
      subst hce
      decide
  simp only [b64decode, hasc, if_true]
  rw [hdata]
  obtain ⟨l2, o2, heq⟩ :=
    b64DecodeLoop_alpha (List.replicate (if s.length % 4 = 0 then 0 else 4 - s.length % 4) '=')
      s.data hall2 0 0 [] (by omega)
  rw [heq]
  have hmods : s.length % 4 = 0 ∨ s.length % 4 = 2 ∨ s.length % 4 = 3 := by omega
  rcases hmods with h0 | h2 | h3
  · have hq : (0 + s.data.length) % 4 = 0 := by omega
    rw [hq, if_pos h0]
    simp [b64DecodeLoop]
  · have hq : (0 + s.data.length) % 4 = 2 := by omega
    have hp2 : (if s.length % 4 = 0 then 0 else 4 - s.length % 4) = 2 := by
      rw [if_neg (by omega)]
      omega
    rw [hq, hp2]
    simp [b64DecodeLoop, List.replicate]
  · have hq : (0 + s.data.length) % 4 = 3 := by omega
    have hp1 : (if s.length % 4 = 0 then 0 else 4 - s.length % 4) = 1 := by
      rw [if_neg (by omega)]
      omega
    rw [hq, hp1]
    simp [b64DecodeLoop, List.replicate]

/-- Witness for C8 (amended) at the alphabet input `AA` (length ≡ 2). -/
theorem padding_step_properties_witness :
    (addB64Padding "AA").length % 4 = 0 ∧
    (b64decode (addB64Padding "AA")).isSome = true :=
  ⟨(padding_step_properties "AA").1,
    (padding_step_properties "AA").2 (by decide) (by decide)⟩

/-- Claim C9 counterexample: on a manifest whose raw text carries a
`default_KID=`-style token with a 22-character base64-ish value (long
enough for the spec's strategy 4 to find, as `specStrategy4TextScan`
shows), but whose element tree defeats strategies 1-3,
`extract_kid_from_mpd` returns `None`: the code has no text-pattern scan
and no initialization-segment fetch. -/
theorem no_text_pattern_fallback_counterexample :
    extract_kid_from_mpd (some textPatternManifest) = none ∧
    specStrategy4TextScan textPatternManifestRaw = some "QUJDREVGR0hJSktMTU5PUA" ∧
    20 ≤ ("QUJDREVGR0hJSktMTU5PUA" : String).length := by
  refine ⟨by decide, by decide, by decide⟩

/-- Claim C9 (amended): `extract_kid_from_mpd` implements only strategies
1-3; when all three fail it returns `None` directly (and a manifest that
does not parse also yields `None`) — the spec's strategies 4 (raw-text
regular-expression scan) and 5 (initialization-segment fetch) do not exist
in the code. -/
theorem extract_kid_only_three_strategies (root : XElem)
    (h1 : strategy1 root = none) (h2 : strategy2 root = none)
    (h3 : strategy3 root = none) :
    extract_kid_from_mpd (some root) = none ∧ extract_kid_from_mpd none = none := by
  constructor
  · simp [extract_kid_from_mpd, h1, h2, h3]
  · rfl

/-- Witness for C9 (amended) at a manifest with no KID information. -/
theorem extract_kid_only_three_strategies_witness :
    extract_kid_from_mpd (some emptyManifest) = none ∧
    extract_kid_from_mpd none = none :=
  extract_kid_only_three_strategies emptyManifest (by decide) (by decide) (by decide)

/-- Claim C10 counterexample: a response whose `keys` array holds two
entries with the *same* `kid` and different keys produces two output
entries with that KID — duplicates by KID are not suppressed by the
primary path. -/
theorem duplicate_kid_counterexample :
    parse_clearkey_response dupKidResponseRaw (some dupKidResponse) =
      .ok ["1234567890abcdef1234567890abcdef:00000000000000000000000000000000",
           "1234567890abcdef1234567890abcdef:01000000000000000000000000000000"] ∧
    ("1234567890abcdef1234567890abcdef:00000000000000000000000000000000" : String).data.take 32 =
      ("1234567890abcdef1234567890abcdef:01000000000000000000000000000000" : String).data.take 32 :=
  ⟨rfl, by decide⟩

/-- Claim C10 (amended): the primary path preserves response order —
processing a concatenation of entry lists (when the first part raises no
aborting exception) concatenates the emitted keys in order — but performs
no KID-based deduplication; only the hex fallback of
`try_alternative_methods` suppresses (exact `kid:key` string)
duplicates. -/
theorem entries_processed_in_order (l1 l2 : List JValue)
    (h : ∀ e ∈ l1, processEntry e ≠ .abort) :
    (runEntries (l1 ++ l2) []).1 = (runEntries l1 []).1 ++ (runEntries l2 []).1 := by
  induction l1 with
  | nil => simp [runEntries]
  | cons e rest ih =>
      cases hp : processEntry e with
      | emit s =>
          simp only [List.cons_append, runEntries, hp, List.append_eq]
          rw [runEntries_acc (rest ++ l2) ([] ++ [s]), runEntries_acc rest ([] ++ [s])]
          simp [ih (fun x hx => h x (List.mem_cons_of_mem e hx))]
      | skip =>
          simp only [List.cons_append, runEntries, hp]
          exact ih (fun x hx => h x (List.mem_cons_of_mem e hx))
      | abort => exact absurd hp (h e (List.mem_cons_self e rest))

/-- Witness for C10 (amended) at the two duplicate-KID entries. -/
theorem entries_processed_in_order_witness :
    (runEntries ([dupKidEntry1] ++ [dupKidEntry2]) []).1 =
      (runEntries [dupKidEntry1] []).1 ++ (runEntries [dupKidEntry2] []).1 :=
  entries_processed_in_order [dupKidEntry1] [dupKidEntry2] (by decide)
